import Mathlib

/-!
Verification of the PVI (partitioned variational inference) repository:
a shallow embedding of the exponential-family parameter algebra
(`pvi/distributions`), the client loss bookkeeping (`pvi/clients/base.py`)
and the server orchestration (`pvi/servers`), together with theorems
settling the specified properties.

Numeric modelling conventions:
* torch tensors holding frozen values are modelled componentwise; where a
  claim is about pure natural-parameter arithmetic the tensor values are
  rationals, and where a claim needs `exp`/`log`/`sqrt` the values are reals.
* a tensor together with its autograd flag is modelled by `PVI.Tensor`:
  a value paired with a `requires_grad` bit; `detach` clears the bit and
  arithmetic propagates it, matching torch autograd's graph-tracking.
* Python `None`-able attributes are modelled by `Option`, raised exceptions
  by `Except String`.
-/

namespace PVI

/-! ## Tensors with an autograd flag (used by the factor algebra) -/

/-- A scalar torch tensor: a value together with the autograd
`requires_grad` flag (true when the tensor is part of a gradient graph). -/
structure Tensor where
  val : ℚ
  requires_grad : Bool
deriving DecidableEq

/-- `t.detach()`: same value, removed from the gradient graph. -/
def Tensor.detach (t : Tensor) : Tensor := ⟨t.val, false⟩

/-- Tensor subtraction; the result requires grad when either operand does. -/
def Tensor.sub (a b : Tensor) : Tensor :=
  ⟨a.val - b.val, a.requires_grad || b.requires_grad⟩

/-- Tensor addition; the result requires grad when either operand does. -/
def Tensor.add (a b : Tensor) : Tensor :=
  ⟨a.val + b.val, a.requires_grad || b.requires_grad⟩

/-! ## Factor algebra (`pvi/distributions/base.py`, `ExponentialFamilyFactor`) -/

/-- An exponential-family approximating likelihood factor: a dictionary of
natural parameters, modelled as a function from the key set `K` to tensors
(`self.nat_params` in `ExponentialFamilyFactor.__init__`). -/
structure ExponentialFamilyFactor (K : Type) where
  nat_params : K → Tensor

/-- A distribution as seen by `compute_refined_factor`: only its natural
parameter dictionary is read (`q1.nat_params` / `q2.nat_params`). -/
structure NatParamDist (K : Type) where
  nat_params : K → Tensor

/-- `ExponentialFamilyFactor.compute_refined_factor(q1, q2)`: for each key of
`self.nat_params`, `np1[name].detach() - np2[name].detach() + np.detach()`,
returning a factor of the same type built from the resulting dictionary. -/
def ExponentialFamilyFactor.compute_refined_factor {K : Type}
    (t : ExponentialFamilyFactor K) (q1 q2 : NatParamDist K) :
    ExponentialFamilyFactor K :=
  ⟨fun name =>
    (((q1.nat_params name).detach.sub ((q2.nat_params name).detach)).add
      ((t.nat_params name).detach))⟩

/-! ## Client batch losses (`pvi/clients/base.py`) -/

/-- One mini-batch loss of `PVIClient.gradient_based_update`.  Inputs are the
scalars produced by the external torch calls:
`kl_sum = q.kl_divergence(q_old).sum()`,
`ll_mean = likelihood_log_prob(batch, thetas).mean(0).sum()`,
`eqlogt = self.t.eqlogt(q)`, `n = len(x)`, `n_batch = len(x_batch)`.
The code computes `kl = kl_sum / n`, `ll = ll_mean / n_batch`,
`ll = ll - eqlogt / n`, `loss = kl - ll`. -/
def PVIClient.batch_loss (kl_sum ll_mean eqlogt n n_batch : ℚ) : ℚ :=
  let kl := kl_sum / n
  let ll := ll_mean / n_batch
  let ll2 := ll - eqlogt / n
  kl - ll2

/-- One mini-batch loss of `ContinualLearningClient.gradient_based_update`:
`kl = kl_sum / n`, `ll = ll_mean / n_batch`, `loss = kl - ll` — no factor
correction term. -/
def ContinualLearningClient.batch_loss (kl_sum ll_mean n n_batch : ℚ) : ℚ :=
  kl_sum / n - ll_mean / n_batch

/-! ## Stopping predicates (`pvi/servers/*.py`) -/

/-- `AsynchronousServer.should_stop`:
`self.iterations > self.hyperparameters["max_iterations"] - 1`
(Python integers, modelled by `ℤ`). -/
def AsynchronousServer.should_stop (iterations max_iterations : ℤ) : Bool :=
  decide (iterations > max_iterations - 1)

/-- `ContinualLearningServer.should_stop`:
`self.iterations > self.hyperparameters["max_iterations"] - 1`. -/
def ContinualLearningServer.should_stop (iterations max_iterations : ℤ) : Bool :=
  decide (iterations > max_iterations - 1)

/-! ## Server orchestration (`pvi/servers/asynchronous_server.py`,
`pvi/servers/continual_learning_server.py`)

The servers only read the posterior's natural-parameter dictionary and
construct replacements with `type(self.q)(nat_params=..., is_trainable=False)`,
so the global posterior is modelled as a natural-parameter-authoritative
distribution with its `is_trainable` flag.  A client's `fit` runs external
torch optimisation; its outcome is modelled by a client-specific function
`fit_result` from the incoming posterior's natural parameters to the refined
factor's (resp. refined posterior's) natural parameters. -/

/-- A global posterior as the servers hold it: natural parameters over the
key set `K` plus the `is_trainable` flag. -/
structure ServerDist (K : Type) where
  nat_params : K → ℚ
  is_trainable : Bool

/-- `q.non_trainable_copy()` on a natural-parameter-authoritative
non-trainable distribution: detached copies of the same natural parameters. -/
def ServerDist.non_trainable_copy {K : Type} (q : ServerDist K) : ServerDist K :=
  ⟨q.nat_params, false⟩

/-- A PVI client as the asynchronous server sees it: its current factor
`self.t` (natural parameters), the `can_update` flag, and the abstract
behaviour of `fit`.  `SynchronousClient.fit` stores the refined factor in
`self.t` and returns it, and leaves `can_update` true on return. -/
structure AsyncClient (K : Type) where
  t : K → ℚ
  can_update : Bool
  fit_result : (K → ℚ) → (K → ℚ)

/-- `AsynchronousServer` state: posterior `q`, client list, round counter
`iterations`, `communications`, the per-round `clients_updated` counter, and
the logs appended to in `tick`. -/
structure AsyncServerState (K : Type) where
  q : ServerDist K
  clients : List (AsyncClient K)
  iterations : ℤ
  communications : ℤ
  clients_updated : ℤ
  log_q : List (ServerDist K)
  log_communications : List ℤ
  log_clients_updated : List ℤ

/-- Body of one iteration of the `for i in range(len(self.clients))` loop in
`AsynchronousServer.tick`, after the selection of `client_index`:
if the selected client `can_update`, read `t_i_old = client.t`, call
`t_i_new = client.fit(self.q)`, compute
`delta_np[k] = t_i_new.nat_params[k] - t_i_old.nat_params[k]`, rebind
`self.q = type(self.q)(nat_params={k: v + delta_np[k] * damping},
is_trainable=False)`, bump the counters and append to the logs; otherwise
skip the client. -/
def AsynchronousServer.update_step {K : Type} (damping : ℚ)
    (st : AsyncServerState K) (client_index : ℕ) : AsyncServerState K :=
  match st.clients.get? client_index with
  | none => st
  | some client =>
    if client.can_update then
      let t_i_old := client.t
      let t_i_new := client.fit_result st.q.nat_params
      let delta_np : K → ℚ := fun k => t_i_new k - t_i_old k
      let q_new_nps : K → ℚ := fun k => st.q.nat_params k + delta_np k * damping
      let q' : ServerDist K := ⟨q_new_nps, false⟩
      { st with
        q := q'
        clients := st.clients.set client_index { client with t := t_i_new }
        communications := st.communications + 1
        clients_updated := st.clients_updated + 1
        log_q := st.log_q ++ [q'.non_trainable_copy]
        log_communications := st.log_communications ++ [st.communications + 1] }
    else st

/-- The client-visiting loop of `AsynchronousServer.tick` over the stream of
sampled client indices (one index per loop iteration): before each iteration
the availability list is checked and the round breaks early when no client
reports available. -/
def AsynchronousServer.tick_loop {K : Type} (damping : ℚ)
    (st : AsyncServerState K) : List ℕ → AsyncServerState K
  | [] => st
  | client_index :: rest =>
    if st.clients.all (fun c => !c.can_update) then st
    else
      AsynchronousServer.tick_loop damping
        (AsynchronousServer.update_step damping st client_index) rest

/-- `AsynchronousServer.tick`: returns `False` when `should_stop()` holds;
otherwise runs the round (with `clients_updated` reset to 0), increments
`iterations`, logs `clients_updated`, and falls off the end of the function —
in Python the call then evaluates to `None`, modelled by `Option.none`. -/
def AsynchronousServer.tick {K : Type} (damping : ℚ) (max_iterations : ℤ)
    (st : AsyncServerState K) (selections : List ℕ) :
    AsyncServerState K × Option Bool :=
  if AsynchronousServer.should_stop st.iterations max_iterations then
    (st, some false)
  else
    let st1 :=
      AsynchronousServer.tick_loop damping
        { st with clients_updated := 0 } selections
    ({ st1 with
        iterations := st1.iterations + 1
        log_clients_updated := st1.log_clients_updated ++ [st1.clients_updated] },
      none)

/-- The possible per-round selection streams.  Each of the
`len(self.clients)` loop iterations draws one index with
`np.random.choice(len(self.clients), 1, replace=False, p=self.client_probs)`;
`replace=False` is vacuous for a size-1 draw, the draws are independent
across iterations, and every index has positive probability (see
`AsynchronousServer.client_probs`), so the sampler can produce exactly the
streams of `len(self.clients)` valid indices. -/
def AsynchronousServer.admissible_selection (num_clients : ℕ)
    (selections : List ℕ) : Bool :=
  selections.length == num_clients &&
    selections.all (fun i => decide (i < num_clients))

/-- The sampling distribution built in `AsynchronousServer.__init__`:
`client_probs = [1 / client.data["x"].shape[0] for client in clients]`,
then `self.client_probs = [prob / sum(client_probs) for prob in
client_probs]`.  `sizes` lists each client's local dataset size. -/
def AsynchronousServer.client_probs (sizes : List ℕ) : List ℚ :=
  let raw := sizes.map (fun n : ℕ => 1 / (n : ℚ))
  raw.map (fun p => p / raw.sum)

/-- A continual-learning client as the server sees it: the `can_update` flag
and the abstract outcome of `fit` — the refined posterior's natural
parameters as a function of the incoming posterior's. -/
structure CLClient (K : Type) where
  can_update : Bool
  fit_result : (K → ℚ) → (K → ℚ)

/-- `ContinualLearningServer` state. -/
structure CLServerState (K : Type) where
  q : ServerDist K
  clients : List (CLClient K)
  client_idx : ℕ
  iterations : ℤ
  communications : ℤ
  log_q : List (ServerDist K)
  log_communications : List ℤ

/-- `ContinualLearningServer.tick`: returns `False` when `should_stop()`
holds; otherwise visits the single client at `client_idx` (if it reports
available, `self.q = q_new.non_trainable_copy()` and the counters/logs are
updated), increments `iterations`, advances `client_idx` round-robin, and
falls off the end of the function (Python `None`). -/
def ContinualLearningServer.tick {K : Type} (max_iterations : ℤ)
    (st : CLServerState K) : CLServerState K × Option Bool :=
  if ContinualLearningServer.should_stop st.iterations max_iterations then
    (st, some false)
  else
    let st1 :=
      match st.clients.get? st.client_idx with
      | none => st
      | some client =>
        if client.can_update then
          let q_new : ServerDist K := ⟨client.fit_result st.q.nat_params, false⟩
          let q2 := q_new.non_trainable_copy
          { st with
            q := q2
            communications := st.communications + 1
            log_q := st.log_q ++ [q2.non_trainable_copy]
            log_communications := st.log_communications ++ [st.communications + 1] }
        else st
    ({ st1 with
        iterations := st1.iterations + 1
        client_idx := (st1.client_idx + 1) % st.clients.length },
      none)

/-- Python truthiness of a `tick` return value: `None` is falsy. -/
def py_truthy : Option Bool → Bool
  | none => false
  | some b => b

/-- A concrete client whose `fit` returns the incoming posterior's natural
parameter plus one (single-key dictionary, `K = Unit`). -/
def claim3_client : AsyncClient Unit :=
  ⟨fun _ => 0, true, fun qn => fun _ => qn () + 1⟩

/-- A concrete one-client asynchronous-server state. -/
def claim3_state : AsyncServerState Unit :=
  ⟨⟨fun _ => 0, false⟩, [claim3_client], 0, 0, 0, [], [], []⟩

/-- Client 0 of the two-client duplicate-selection scenario. -/
def claim4_client0 : AsyncClient Unit :=
  ⟨fun _ => 0, true, fun qn => fun _ => qn () + 1⟩

/-- Client 1 of the two-client duplicate-selection scenario. -/
def claim4_client1 : AsyncClient Unit :=
  ⟨fun _ => 0, true, fun qn => fun _ => qn ()⟩

/-- A concrete two-client asynchronous-server state in which both clients are
available. -/
def claim4_state : AsyncServerState Unit :=
  ⟨⟨fun _ => 0, false⟩, [claim4_client0, claim4_client1], 0, 0, 0, [], [], []⟩

/-! ## IP-BNN posterior aggregate (`pvi/distributions/ip_bnn_distributions.py`)

Tensors here are frozen value tensors, modelled as lists of rationals
(one entry per element); `torch.allclose` compares elementwise with the
default tolerances `rtol=1e-05`, `atol=1e-08`. -/

/-- Absolute value on `ℚ` (as an executable conditional, equal to `|·|`). -/
def rat_abs (x : ℚ) : ℚ := if x < 0 then -x else x

/-- `torch.allclose(a, b)` with default tolerances: the shapes agree and
`|a[i] − b[i]| ≤ atol + rtol·|b[i]|` elementwise. -/
def torch_allclose (a b : List ℚ) : Bool :=
  a.length == b.length &&
    (a.zip b).all fun pr =>
      decide (rat_abs (pr.1 - pr.2) ≤ 1 / 100000000 + (1 / 100000) * rat_abs pr.2)

/-- The natural parameters (`np1`, `np2`) of one layer's distribution inside
a `BNNFactor`. -/
structure LayerFactorDist where
  np1 : List ℚ
  np2 : List ℚ
deriving DecidableEq

/-- A `BNNFactor`: inducing locations plus one distribution per layer. -/
structure BNNFactor where
  inducing_locations : List ℚ
  distributions : List LayerFactorDist
deriving DecidableEq

/-- `IPBNNGaussianPosterior`: a prior `p` (opaque to `form_cavity`) and the
list of pseudo-likelihood factors `ts`. -/
structure IPBNNGaussianPosterior (P : Type) where
  p : P
  ts : List BNNFactor

/-- The match test of `IPBNNGaussianPosterior.form_cavity` for one candidate
`ti` against `t`: `torch.allclose` on the inducing locations, and on `np1`
and `np2` of every zipped layer pair (`same_inducing and all(same_np1) and
all(same_np2)`). -/
def factor_matches (ti t : BNNFactor) : Bool :=
  torch_allclose ti.inducing_locations t.inducing_locations &&
    ((ti.distributions.zip t.distributions).all fun pr =>
      torch_allclose pr.1.np1 pr.2.np1) &&
    ((ti.distributions.zip t.distributions).all fun pr =>
      torch_allclose pr.1.np2 pr.2.np2)

/-- Zeroing a matched factor's natural parameters:
`dist.nat_params[k] = torch.zeros_like(v)` for every layer and key — the
factor is retained (inducing locations kept), its parameters zeroed. -/
def BNNFactor.zero_nat_params (f : BNNFactor) : BNNFactor :=
  { f with
    distributions := f.distributions.map fun d =>
      ⟨d.np1.map fun _ => 0, d.np2.map fun _ => 0⟩ }

/-- The factor list with the factor at position `i` zeroed (the in-place
mutation `ts[i]` of `form_cavity`, observed in the returned aggregate). -/
def zero_factor_at : List BNNFactor → ℕ → List BNNFactor
  | [], _ => []
  | f :: rest, 0 => f.zero_nat_params :: rest
  | f :: rest, i + 1 => f :: zero_factor_at rest i

/-- The search loop of `form_cavity`: scan `ts` for the first factor
matching `t`; on a match, zero its natural parameters and report its index. -/
def form_cavity_loop (t : BNNFactor) : List BNNFactor → Option (List BNNFactor × ℕ)
  | [] => none
  | ti :: rest =>
    if factor_matches ti t then some (ti.zero_nat_params :: rest, 0)
    else
      match form_cavity_loop t rest with
      | some (ts, i) => some (ti :: ts, i + 1)
      | none => none

/-- `IPBNNGaussianPosterior.form_cavity(t)`: returns the aggregate with the
first matching factor zeroed together with its index, and raises
`ValueError("Could not find t in self.ts!")` when no factor matches. -/
def IPBNNGaussianPosterior.form_cavity {P : Type}
    (q : IPBNNGaussianPosterior P) (t : BNNFactor) :
    Except String (IPBNNGaussianPosterior P × ℕ) :=
  match form_cavity_loop t q.ts with
  | some (ts, i) => .ok (⟨q.p, ts⟩, i)
  | none => .error "Could not find t in self.ts!"

/-- A concrete factor for the `form_cavity` scenario. -/
def claim9_t : BNNFactor := ⟨[1], [⟨[2], [3]⟩]⟩

/-- A concrete factor far from `claim9_t` (no `allclose` match). -/
def claim9_other : BNNFactor := ⟨[100], [⟨[200], [300]⟩]⟩

/-- A concrete aggregate holding `claim9_other` then `claim9_t`. -/
def claim9_post : IPBNNGaussianPosterior Unit := ⟨(), [claim9_other, claim9_t]⟩

/-- A concrete factor matching nothing in `claim9_post`. -/
def claim9_absent : BNNFactor := ⟨[7], [⟨[8], [9]⟩]⟩

/-- A concrete one-client asynchronous-server state below its round budget. -/
def claim6_async_state : AsyncServerState Unit :=
  ⟨⟨fun _ => 0, false⟩, [⟨fun _ => 0, true, fun qn => qn⟩], 0, 0, 0, [], [], []⟩

/-- A concrete one-client continual-learning-server state below its round
budget. -/
def claim6_cl_state : CLServerState Unit :=
  ⟨⟨fun _ => 0, false⟩, [⟨true, fun qn => qn⟩], 0, 0, 0, [], []⟩

/-! ## Exponential-family parameterisation bookkeeping
(`pvi/distributions/base.py`, `ExponentialFamilyDistribution`, and the
concrete families of `pvi/distributions/exponential_family_distributions.py`)

Value tensors are modelled elementwise over an index type `I` with real
entries; `detach` is the identity on frozen values.  `torch.exp(x) ** 0.5`
and `x ** 0.5` on non-negative tensors are modelled by `Real.sqrt`, and
`x ** -2` by `(x ^ 2)⁻¹`. -/

/-- The four family-specific conversions that each concrete subclass of
`ExponentialFamilyDistribution` supplies (`_std_from_unc`, `_unc_from_std`,
`_nat_from_std`, `_std_from_nat`). -/
structure EFFam (S N U : Type) where
  std_from_unc : U → S
  unc_from_std : S → U
  nat_from_std : S → N
  std_from_nat : N → S

/-- The attribute state of an `ExponentialFamilyDistribution`:
`is_trainable` plus the three internal slots `_std_params`, `_nat_params`,
`_unc_params` (each `None`-able). -/
structure EFDist (S N U : Type) where
  is_trainable : Bool
  stdP : Option S
  natP : Option N
  uncP : Option U

/-- `ExponentialFamilyDistribution.__init__(std_params, nat_params,
is_trainable)`: trainable distributions store only unconstrained parameters
(derived from `std_params`, falling back to `_std_from_nat(nat_params)`),
raising `ValueError` when neither is given; non-trainable distributions
store `std_params` and `nat_params` as passed (possibly `None`). -/
def EFDist.init {S N U : Type} (fam : EFFam S N U) (std_params : Option S)
    (nat_params : Option N) (is_trainable : Bool) :
    Except String (EFDist S N U) :=
  if is_trainable then
    match std_params with
    | some s => .ok ⟨true, none, none, some (fam.unc_from_std s)⟩
    | none =>
      match nat_params with
      | some n =>
        .ok ⟨true, none, none, some (fam.unc_from_std (fam.std_from_nat n))⟩
      | none =>
        .error "No initial parameterisation specified. Cannot create optimisable parameters."
  else .ok ⟨false, std_params, nat_params, none⟩

/-- The `std_params` property getter: trainable distributions derive from
the unconstrained slot, non-trainable ones return the stored standard
parameters, deriving them from the natural parameters when absent. -/
def EFDist.std_params {S N U : Type} (fam : EFFam S N U) (d : EFDist S N U) :
    Option S :=
  if d.is_trainable then d.uncP.map fam.std_from_unc
  else
    match d.stdP with
    | some s => some s
    | none => d.natP.map fam.std_from_nat

/-- The source parameters both `non_trainable_copy` and `trainable_copy`
hand to the constructor: from a trainable distribution, detached standard
parameters derived from the unconstrained slot and no natural parameters;
from a non-trainable one, detached copies of whichever of the two stored
slots are present. -/
def EFDist.copy_params {S N U : Type} (fam : EFFam S N U) (d : EFDist S N U) :
    Option S × Option N :=
  if d.is_trainable then (d.uncP.map fam.std_from_unc, none)
  else (d.stdP, d.natP)

/-- `ExponentialFamilyDistribution.non_trainable_copy()`:
`type(self)(std_params, nat_params, is_trainable=False)` on the copy
sources. -/
def EFDist.non_trainable_copy {S N U : Type} (fam : EFFam S N U)
    (d : EFDist S N U) : Except String (EFDist S N U) :=
  EFDist.init fam (EFDist.copy_params fam d).1 (EFDist.copy_params fam d).2
    false

/-- `ExponentialFamilyDistribution.trainable_copy()`:
`type(self)(std_params, nat_params, is_trainable=True)` on the copy
sources. -/
def EFDist.trainable_copy {S N U : Type} (fam : EFFam S N U)
    (d : EFDist S N U) : Except String (EFDist S N U) :=
  EFDist.init fam (EFDist.copy_params fam d).1 (EFDist.copy_params fam d).2
    true

/-- Standard parameters of `MeanFieldGaussianDistribution` (`loc`, `scale`),
elementwise over `I`. -/
@[ext]
structure MFGStd (I : Type) where
  loc : I → ℝ
  scale : I → ℝ

/-- Natural parameters of `MeanFieldGaussianDistribution`. -/
@[ext]
structure MFGNat (I : Type) where
  np1 : I → ℝ
  np2 : I → ℝ

/-- Unconstrained parameters of `MeanFieldGaussianDistribution`
(`loc`, `log_var`). -/
@[ext]
structure MFGUnc (I : Type) where
  loc : I → ℝ
  log_var : I → ℝ

/-- `MeanFieldGaussianDistribution`'s conversions:
`_std_from_unc`: `scale = torch.exp(log_var) ** 0.5`;
`_unc_from_std`: `log_var = 2 * torch.log(scale)`;
`_nat_from_std`: `np1 = loc * scale ** -2`, `np2 = -0.5 * scale ** -2`;
`_std_from_nat`: `loc = -0.5 * np1 / np2`, `scale = (-0.5 / np2) ** 0.5`.
(`LogNormalDistribution` inherits exactly these conversions.) -/
noncomputable def MeanFieldGaussianDistribution.fam (I : Type) :
    EFFam (MFGStd I) (MFGNat I) (MFGUnc I) where
  std_from_unc u := ⟨u.loc, fun i => Real.sqrt (Real.exp (u.log_var i))⟩
  unc_from_std s := ⟨s.loc, fun i => 2 * Real.log (s.scale i)⟩
  nat_from_std s :=
    ⟨fun i => s.loc i * (s.scale i ^ 2)⁻¹,
     fun i => -(1 / 2) * (s.scale i ^ 2)⁻¹⟩
  std_from_nat n :=
    ⟨fun i => -(1 / 2) * n.np1 i / n.np2 i,
     fun i => Real.sqrt (-(1 / 2) / n.np2 i)⟩

/-- Standard parameters of `BetaDistribution`
(`concentration1` = α, `concentration0` = β). -/
@[ext]
structure BetaStd (I : Type) where
  concentration1 : I → ℝ
  concentration0 : I → ℝ

/-- Natural parameters of `BetaDistribution`. -/
@[ext]
structure BetaNat (I : Type) where
  np1 : I → ℝ
  np2 : I → ℝ

/-- Unconstrained parameters of `BetaDistribution`. -/
@[ext]
structure BetaUnc (I : Type) where
  log_alpha : I → ℝ
  log_beta : I → ℝ

/-- `BetaDistribution`'s conversions, as written in the source:
`_nat_from_std`: `np1 = alpha - 1`, `np2 = beta - 1`;
`_std_from_nat`: `concentration1 = np1 + 1`, `concentration0 = np2 + 2`. -/
noncomputable def BetaDistribution.fam (I : Type) :
    EFFam (BetaStd I) (BetaNat I) (BetaUnc I) where
  std_from_unc u :=
    ⟨fun i => Real.exp (u.log_alpha i), fun i => Real.exp (u.log_beta i)⟩
  unc_from_std s :=
    ⟨fun i => Real.log (s.concentration1 i),
     fun i => Real.log (s.concentration0 i)⟩
  nat_from_std s :=
    ⟨fun i => s.concentration1 i - 1, fun i => s.concentration0 i - 1⟩
  std_from_nat n := ⟨fun i => n.np1 i + 1, fun i => n.np2 i + 2⟩

/-- Standard parameters of `GammaDistribution` (`concentration`, `rate`). -/
@[ext]
structure GammaStd (I : Type) where
  concentration : I → ℝ
  rate : I → ℝ

/-- Natural parameters of `GammaDistribution`. -/
@[ext]
structure GammaNat (I : Type) where
  np1 : I → ℝ
  np2 : I → ℝ

/-- Unconstrained parameters of `GammaDistribution`. -/
@[ext]
structure GammaUnc (I : Type) where
  log_alpha : I → ℝ
  log_beta : I → ℝ

/-- `GammaDistribution`'s conversions:
`_std_from_unc`: `concentration = log_alpha.exp()`, `rate = 1 / log_beta.exp()`;
`_unc_from_std`: `log_alpha = concentration.log()`, `log_beta = (1 / rate).log()`;
`_nat_from_std`: `np1 = concentration - 1`, `np2 = -1 / rate`;
`_std_from_nat`: `concentration = np1 + 1`, `rate = -1 / np2`. -/
noncomputable def GammaDistribution.fam (I : Type) :
    EFFam (GammaStd I) (GammaNat I) (GammaUnc I) where
  std_from_unc u :=
    ⟨fun i => Real.exp (u.log_alpha i), fun i => 1 / Real.exp (u.log_beta i)⟩
  unc_from_std s :=
    ⟨fun i => Real.log (s.concentration i), fun i => Real.log (1 / s.rate i)⟩
  nat_from_std s := ⟨fun i => s.concentration i - 1, fun i => -1 / s.rate i⟩
  std_from_nat n := ⟨fun i => n.np1 i + 1, fun i => -1 / n.np2 i⟩

/-- Standard parameters of `DirichletDistribution` (`concentration`). -/
@[ext]
structure DirStd (I : Type) where
  concentration : I → ℝ

/-- Natural parameters of `DirichletDistribution`. -/
@[ext]
structure DirNat (I : Type) where
  np1 : I → ℝ

/-- Unconstrained parameters of `DirichletDistribution` (`up1` = log
concentration). -/
@[ext]
structure DirUnc (I : Type) where
  up1 : I → ℝ

/-- `DirichletDistribution`'s conversions: `exp`/`log` between
concentration and `up1`, `np1 = concentration - 1` and back. -/
noncomputable def DirichletDistribution.fam (I : Type) :
    EFFam (DirStd I) (DirNat I) (DirUnc I) where
  std_from_unc u := ⟨fun i => Real.exp (u.up1 i)⟩
  unc_from_std s := ⟨fun i => Real.log (s.concentration i)⟩
  nat_from_std s := ⟨fun i => s.concentration i - 1⟩
  std_from_nat n := ⟨fun i => n.np1 i + 1⟩

/-- Standard parameters of `CategoricalDistribution` (`probs` over `Fin m`). -/
@[ext]
structure CatStd (m : ℕ) where
  probs : Fin m → ℝ

/-- Natural parameters of `CategoricalDistribution` (`log_probs`). -/
@[ext]
structure CatNat (m : ℕ) where
  log_probs : Fin m → ℝ

/-- Unconstrained parameters of `CategoricalDistribution` (`log_probs`). -/
@[ext]
structure CatUnc (m : ℕ) where
  log_probs : Fin m → ℝ

/-- `CategoricalDistribution`'s four conversions. -/
noncomputable def CategoricalDistribution.fam (m : ℕ) :
    EFFam (CatStd m) (CatNat m) (CatUnc m) where
  std_from_unc u :=
    ⟨fun i => Real.exp (u.log_probs i) / ∑ j, Real.exp (u.log_probs j)⟩
  unc_from_std s := ⟨fun i => Real.log (s.probs i)⟩
  nat_from_std s := ⟨fun i => Real.log (s.probs i)⟩
  std_from_nat n := ⟨fun i => Real.exp (n.log_probs i)⟩

/-- The normalisation applied by `CategoricalDistribution`'s overridden
`std_params` setter: `std_params["probs"] = probs / probs.sum(-1)`. -/
noncomputable def CategoricalDistribution.normalize_std {m : ℕ} (s : CatStd m) : CatStd m :=
  ⟨fun i => s.probs i / ∑ j, s.probs j⟩

/-- The normalisation applied by `CategoricalDistribution`'s overridden
`nat_params` setter: `p = log_probs.exp(); p = p / p.sum(-1);
nat_params["log_probs"] = p.log()`. -/
noncomputable def CategoricalDistribution.normalize_nat {m : ℕ} (n : CatNat m) : CatNat m :=
  ⟨fun i =>
    Real.log (Real.exp (n.log_probs i) / ∑ j, Real.exp (n.log_probs j))⟩

/-- `CategoricalDistribution.__init__`: the base constructor, but every
assignment `self.std_params = ...` / `self.nat_params = ...` goes through
the subclass's overridden property setters, which subscript their argument
(`std_params["probs"]`, `nat_params["log_probs"]`) *before* any `None`
check — so in the non-trainable branch a `None` standard- or
natural-parameter argument raises `TypeError: 'NoneType' object is not
subscriptable`. -/
noncomputable def CategoricalDistribution.init (m : ℕ) (std_params : Option (CatStd m))
    (nat_params : Option (CatNat m)) (is_trainable : Bool) :
    Except String (EFDist (CatStd m) (CatNat m) (CatUnc m)) :=
  if is_trainable then
    match std_params with
    | some s =>
      .ok ⟨true, none, none,
        some ((CategoricalDistribution.fam m).unc_from_std
          (CategoricalDistribution.normalize_std s))⟩
    | none =>
      match nat_params with
      | some n =>
        .ok ⟨true, none, none,
          some ((CategoricalDistribution.fam m).unc_from_std
            (CategoricalDistribution.normalize_std
              ((CategoricalDistribution.fam m).std_from_nat n)))⟩
      | none =>
        .error "No initial parameterisation specified. Cannot create optimisable parameters."
  else
    match std_params with
    | none => .error "TypeError: 'NoneType' object is not subscriptable"
    | some s =>
      match nat_params with
      | none => .error "TypeError: 'NoneType' object is not subscriptable"
      | some n =>
        .ok ⟨false, some (CategoricalDistribution.normalize_std s),
          some (CategoricalDistribution.normalize_nat n), none⟩

/-- `CategoricalDistribution`'s inherited `trainable_copy`: the base-class
copy sources handed to the subclass constructor. -/
noncomputable def CategoricalDistribution.trainable_copy {m : ℕ}
    (d : EFDist (CatStd m) (CatNat m) (CatUnc m)) :
    Except String (EFDist (CatStd m) (CatNat m) (CatUnc m)) :=
  CategoricalDistribution.init m
    (EFDist.copy_params (CategoricalDistribution.fam m) d).1
    (EFDist.copy_params (CategoricalDistribution.fam m) d).2 true

/-- `CategoricalDistribution`'s inherited `non_trainable_copy`. -/
noncomputable def CategoricalDistribution.non_trainable_copy {m : ℕ}
    (d : EFDist (CatStd m) (CatNat m) (CatUnc m)) :
    Except String (EFDist (CatStd m) (CatNat m) (CatUnc m)) :=
  CategoricalDistribution.init m
    (EFDist.copy_params (CategoricalDistribution.fam m) d).1
    (EFDist.copy_params (CategoricalDistribution.fam m) d).2 false

/-- A valid non-trainable `CategoricalDistribution` over two categories
(uniform, both parameterisations stored, as the subclass constructor leaves
them). -/
noncomputable def claim7_cat_dist : EFDist (CatStd 2) (CatNat 2) (CatUnc 2) :=
  ⟨false, some ⟨fun _ => 1 / 2⟩, some ⟨fun _ => Real.log (1 / 2)⟩, none⟩

/-- A concrete non-trainable mean-field Gaussian (standard parameters
authoritative). -/
noncomputable def claim7_mfg_dist : EFDist (MFGStd Unit) (MFGNat Unit) (MFGUnc Unit) :=
  ⟨false, some ⟨fun _ => 0, fun _ => 1⟩, none, none⟩

/-- A concrete Beta standard parameterisation `α = 2, β = 3`. -/
noncomputable def claim1_beta_std : BetaStd Unit := ⟨fun _ => 2, fun _ => 3⟩

end PVI

/-! # Theorems -/

namespace PVI

/-- **C2.** `compute_refined_factor(q1, q2)` on a factor `t` returns a factor
(of the same type) whose natural parameter at every key `k` is
`detach(q1.nat_params[k]) − detach(q2.nat_params[k]) + detach(t.nat_params[k])`
in value, and every returned tensor has `requires_grad = false` — all operands
are detached before the arithmetic, so no gradient propagates through the
returned factor's parameters. -/
theorem claim_C2 {K : Type} (t : ExponentialFamilyFactor K)
    (q1 q2 : NatParamDist K) (k : K) :
    ((t.compute_refined_factor q1 q2).nat_params k).val =
      (q1.nat_params k).val - (q2.nat_params k).val + (t.nat_params k).val ∧
    ((t.compute_refined_factor q1 q2).nat_params k).requires_grad = false := by
  constructor <;>
    simp [ExponentialFamilyFactor.compute_refined_factor, Tensor.add,
      Tensor.sub, Tensor.detach]

/-- **C5.** For both the asynchronous and the continual-learning server,
`should_stop()` is true exactly when the round counter is `≥ max_iterations`;
in particular this settles the boundary values `0`, `max_iterations − 1` and
`max_iterations` (instances of the universally quantified statement). -/
theorem claim_C5 (iterations max_iterations : ℤ) :
    AsynchronousServer.should_stop iterations max_iterations =
      decide (max_iterations ≤ iterations) ∧
    ContinualLearningServer.should_stop iterations max_iterations =
      decide (max_iterations ≤ iterations) := by
  constructor <;>
    · simp only [AsynchronousServer.should_stop,
        ContinualLearningServer.should_stop, decide_eq_decide]
      omega

/-- **C8.** The plain PVI client's per-batch loss equals
`kl_sum/N − ll_mean/N_batch + eqlogt/N`: it contains the correction term that
subtracts `E_q[log t_old]` scaled by `1/N` from the log-likelihood estimate
(`ll = ll − eqlogt/N` in the code, hence `+eqlogt/N` in the loss), while the
continual-learning client's loss is exactly `KL/N − ll_mean/N_batch` with no
factor-correction term: the difference between the two losses is exactly
`eqlogt/N`. -/
theorem claim_C8 (kl_sum ll_mean eqlogt n n_batch : ℚ) :
    PVIClient.batch_loss kl_sum ll_mean eqlogt n n_batch =
      kl_sum / n - ll_mean / n_batch + eqlogt / n ∧
    ContinualLearningClient.batch_loss kl_sum ll_mean n n_batch =
      kl_sum / n - ll_mean / n_batch ∧
    PVIClient.batch_loss kl_sum ll_mean eqlogt n n_batch -
      ContinualLearningClient.batch_loss kl_sum ll_mean n n_batch =
      eqlogt / n := by
  refine ⟨?_, rfl, ?_⟩ <;>
    · simp only [PVIClient.batch_loss, ContinualLearningClient.batch_loss]
      ring

/-- Sum of a list divided elementwise by a constant. -/
lemma list_sum_map_div (l : List ℚ) (s : ℚ) :
    (l.map (fun p => p / s)).sum = l.sum / s := by
  induction l with
  | nil => simp
  | cons a l ih => simp [ih, add_div]

/-- **C3.** In an asynchronous round, immediately after a selected available
client's fit returns, `q` is rebound to a newly constructed non-trainable
distribution whose natural parameter at every key `k` equals
`q.nat_params[k] + damping · (t_new[k] − t_old[k])`, and the loop continues
from that updated state, so clients visited later in the same round see the
already-updated `q`. -/
theorem claim_C3 {K : Type} (damping : ℚ) (st : AsyncServerState K)
    (client_index : ℕ) (client : AsyncClient K)
    (hget : st.clients.get? client_index = some client)
    (havail : client.can_update = true) :
    (∀ k, (AsynchronousServer.update_step damping st client_index).q.nat_params k =
        st.q.nat_params k +
          damping * (client.fit_result st.q.nat_params k - client.t k)) ∧
    (AsynchronousServer.update_step damping st client_index).q.is_trainable
      = false ∧
    ∀ rest, AsynchronousServer.tick_loop damping st (client_index :: rest) =
        AsynchronousServer.tick_loop damping
          (AsynchronousServer.update_step damping st client_index) rest := by
  have hmem : client ∈ st.clients := List.get?_mem hget
  have hall : st.clients.all (fun c => !c.can_update) = false := by
    refine Bool.eq_false_iff.mpr fun h => ?_
    have := List.all_eq_true.mp h client hmem
    simp [havail] at this
  refine ⟨?_, ?_, ?_⟩
  · intro k
    simp only [AsynchronousServer.update_step, hget, havail, if_true]
    ring
  · simp only [AsynchronousServer.update_step, hget, havail, if_true]
  · intro rest
    simp [AsynchronousServer.tick_loop, hall]

/-- Witness for C3: the theorem applied to a concrete one-client state. -/
theorem claim_C3_witness :
    claim3_state.clients.get? 0 = some claim3_client ∧
    claim3_client.can_update = true ∧
    (AsynchronousServer.update_step 1 claim3_state 0).q.nat_params () =
      claim3_state.q.nat_params () +
        1 * (claim3_client.fit_result claim3_state.q.nat_params () -
          claim3_client.t ()) ∧
    (AsynchronousServer.update_step 1 claim3_state 0).q.is_trainable = false :=
  ⟨rfl, rfl, (claim_C3 1 claim3_state 0 claim3_client rfl rfl).1 (),
    (claim_C3 1 claim3_state 0 claim3_client rfl rfl).2.1⟩

/-- **C4, counterexample.** The selection stream `[0, 0]` — client 0 drawn on
both iterations — is a possible output of the sampler (each iteration draws
independently from all clients with positive probability; `replace=False` is
vacuous for a size-1 draw), it is not duplicate-free, and running the round
on it fits client 0 twice (its factor is refined twice and two
communications are counted) while client 1 is never updated.  Hence clients
are *not* visited in an order sampled without replacement. -/
theorem claim_C4_counterexample :
    AsynchronousServer.admissible_selection 2 [0, 0] = true ∧
    ¬ ([0, 0] : List ℕ).Nodup ∧
    (AsynchronousServer.tick_loop 1 claim4_state [0, 0]).communications = 2 ∧
    ((AsynchronousServer.tick_loop 1 claim4_state [0, 0]).clients.get? 0).map
      (fun c => c.t ()) = some 2 ∧
    ((AsynchronousServer.tick_loop 1 claim4_state [0, 0]).clients.get? 1).map
      (fun c => c.t ()) = some 0 := by
  refine ⟨by decide, by decide, rfl, ?_, rfl⟩
  show some ((claim4_client0.fit_result
    (AsynchronousServer.update_step 1 claim4_state 0).q.nat_params) ()) = some 2
  norm_num [claim4_state, claim4_client0, AsynchronousServer.update_step]

/-- **C4, amended.** Each loop iteration of an asynchronous round draws one
client independently; the per-draw selection probability of client `i` is
`(1 / nᵢ) / Σⱼ (1 / nⱼ)` — inversely proportional to its local dataset size,
normalised over all clients (the probabilities sum to 1).  The same client
may be drawn, and updated, more than once within a round. -/
theorem claim_C4 (sizes : List ℕ) (hpos : ∀ n ∈ sizes, 0 < n)
    (hne : sizes ≠ []) :
    (∀ i, ∀ hi : i < sizes.length,
      (AsynchronousServer.client_probs sizes).get? i =
        some ((1 / (sizes.get ⟨i, hi⟩ : ℚ)) /
          (sizes.map (fun n : ℕ => 1 / (n : ℚ))).sum)) ∧
    (AsynchronousServer.client_probs sizes).sum = 1 := by
  have hpos' : ∀ p ∈ sizes.map (fun n : ℕ => 1 / (n : ℚ)), 0 < p := by
    intro p hp
    rcases List.mem_map.mp hp with ⟨n, hn, rfl⟩
    have hn' : (0 : ℚ) < n := by exact_mod_cast hpos n hn
    exact one_div_pos.mpr hn'
  have hne' : sizes.map (fun n : ℕ => 1 / (n : ℚ)) ≠ [] := by
    intro h
    exact hne (List.map_eq_nil.mp h)
  have hsum : 0 < (sizes.map (fun n : ℕ => 1 / (n : ℚ))).sum :=
    List.sum_pos _ hpos' hne'
  constructor
  · intro i hi
    simp only [AsynchronousServer.client_probs]
    rw [List.get?_map, List.get?_map, List.get?_eq_get hi]
    simp
  · simp only [AsynchronousServer.client_probs, list_sum_map_div]
    exact div_self (ne_of_gt hsum)

/-- Witness for C4 (amended): two clients with dataset sizes 1 and 3. -/
theorem claim_C4_witness :
    (∀ n ∈ [1, 3], 0 < n) ∧ ([1, 3] : List ℕ) ≠ [] ∧
    (AsynchronousServer.client_probs [1, 3]).sum = 1 :=
  ⟨by decide, by decide, (claim_C4 [1, 3] (by decide) (by decide)).2⟩

/-- **C6, counterexample.** At a concrete state that is not yet stopped, both
servers' `tick()` executes a round (the round counter increments) and then
returns `None`, which is falsy in Python — the return value after a round
does not indicate that the process should continue. -/
theorem claim_C6_counterexample :
    AsynchronousServer.should_stop claim6_async_state.iterations 20 = false ∧
    (AsynchronousServer.tick 1 20 claim6_async_state [0]).1.iterations =
      claim6_async_state.iterations + 1 ∧
    (AsynchronousServer.tick 1 20 claim6_async_state [0]).2 = none ∧
    py_truthy (AsynchronousServer.tick 1 20 claim6_async_state [0]).2 = false ∧
    ContinualLearningServer.should_stop claim6_cl_state.iterations 3 = false ∧
    (ContinualLearningServer.tick 3 claim6_cl_state).1.iterations =
      claim6_cl_state.iterations + 1 ∧
    (ContinualLearningServer.tick 3 claim6_cl_state).2 = none ∧
    py_truthy (ContinualLearningServer.tick 3 claim6_cl_state).2 = false :=
  ⟨rfl, rfl, rfl, rfl, rfl, rfl, rfl, rfl⟩

/-- **C6, amended.** For both server variants, `tick()` returns `False`
exactly when `should_stop()` holds; otherwise it executes one round and
falls off the end of the function, returning `None`.  In particular the
return value is never truthy: it never indicates that the process should
continue. -/
theorem claim_C6 {K : Type} (damping : ℚ) (max_iterations : ℤ)
    (st : AsyncServerState K) (selections : List ℕ) (stc : CLServerState K) :
    ((AsynchronousServer.tick damping max_iterations st selections).2 =
      if AsynchronousServer.should_stop st.iterations max_iterations then
        some false
      else none) ∧
    py_truthy (AsynchronousServer.tick damping max_iterations st selections).2
      = false ∧
    ((ContinualLearningServer.tick max_iterations stc).2 =
      if ContinualLearningServer.should_stop stc.iterations max_iterations then
        some false
      else none) ∧
    py_truthy (ContinualLearningServer.tick max_iterations stc).2 = false := by
  refine ⟨?_, ?_, ?_, ?_⟩ <;>
    · simp only [AsynchronousServer.tick, ContinualLearningServer.tick]
      split <;> simp [py_truthy]

/-- The `form_cavity` search fails exactly when no factor matches. -/
lemma form_cavity_loop_none (t : BNNFactor) :
    ∀ ts : List BNNFactor, form_cavity_loop t ts = none ↔
      ∀ ti ∈ ts, factor_matches ti t = false := by
  intro ts
  induction ts with
  | nil => simp [form_cavity_loop]
  | cons a l ih =>
    by_cases h : factor_matches a t
    · constructor
      · intro hnone
        simp [form_cavity_loop, h] at hnone
      · intro hall
        exact absurd (hall a (by simp)) (by simp [h])
    · cases hl : form_cavity_loop t l with
      | none =>
        constructor
        · intro _ ti hti
          rcases List.mem_cons.mp hti with rfl | hmem
          · simpa using h
          · exact (ih.mp hl) ti hmem
        · intro _
          simp [form_cavity_loop, h, hl]
      | some v =>
        constructor
        · intro hnone
          obtain ⟨ts1, i⟩ := v
          simp [form_cavity_loop, h, hl] at hnone
        · intro hall
          have hnone : form_cavity_loop t l = none :=
            ih.mpr fun ti hti => hall ti (List.mem_cons_of_mem _ hti)
          rw [hl] at hnone
          exact absurd hnone (by simp)

/-- On the first matching index, the `form_cavity` search returns the list
with that factor zeroed together with the index. -/
lemma form_cavity_loop_first_match (t : BNNFactor) :
    ∀ (ts : List BNNFactor) (i : ℕ) (ti : BNNFactor),
      ts.get? i = some ti → factor_matches ti t = true →
      ((ts.take i).all fun tj => !factor_matches tj t) = true →
      form_cavity_loop t ts = some (zero_factor_at ts i, i) := by
  intro ts
  induction ts with
  | nil =>
    intro i ti hget
    simp at hget
  | cons a l ih =>
    intro i ti hget hmatch htake
    cases i with
    | zero =>
      have ha : a = ti := by simpa using hget
      subst ha
      simp [form_cavity_loop, hmatch, zero_factor_at]
    | succ n =>
      have ha : factor_matches a t = false := by
        have := List.all_eq_true.mp htake a (by simp)
        simpa using this
      have htake' : ((l.take n).all fun tj => !factor_matches tj t) = true := by
        rw [List.all_eq_true] at htake ⊢
        intro tj htj
        exact htake tj (by simpa using List.mem_cons_of_mem a htj)
      have hrec := ih n ti (by simpa using hget) hmatch htake'
      simp [form_cavity_loop, ha, hrec, zero_factor_at]

/-- **C9.** `IPBNNGaussianPosterior.form_cavity(t)` raises the fatal
factor-not-found `ValueError` exactly when no factor in the aggregate's
factor list matches `t` (`torch.allclose` on the inducing locations and on
the natural parameters of every layer); when a match exists at first index
`i`, it returns the aggregate with that factor's natural parameters zeroed
together with the index `i`. -/
theorem claim_C9 {P : Type} (q : IPBNNGaussianPosterior P) (t : BNNFactor) :
    (q.form_cavity t = Except.error "Could not find t in self.ts!" ↔
      ∀ ti ∈ q.ts, factor_matches ti t = false) ∧
    ∀ (i : ℕ) (ti : BNNFactor),
      q.ts.get? i = some ti → factor_matches ti t = true →
      ((q.ts.take i).all fun tj => !factor_matches tj t) = true →
      q.form_cavity t = Except.ok (⟨q.p, zero_factor_at q.ts i⟩, i) := by
  constructor
  · rw [← form_cavity_loop_none]
    unfold IPBNNGaussianPosterior.form_cavity
    cases h : form_cavity_loop t q.ts with
    | none => simp
    | some v =>
      obtain ⟨ts1, i⟩ := v
      simp
  · intro i ti h1 h2 h3
    unfold IPBNNGaussianPosterior.form_cavity
    rw [form_cavity_loop_first_match t q.ts i ti h1 h2 h3]

/-- Witness for C9: in a concrete two-factor aggregate, the factor equal to
`t` (at index 1) is found, zeroed and its index returned; a factor matching
nothing raises the factor-not-found error. -/
theorem claim_C9_witness :
    claim9_post.ts.get? 1 = some claim9_t ∧
    factor_matches claim9_t claim9_t = true ∧
    claim9_post.form_cavity claim9_t =
      Except.ok (⟨(), zero_factor_at claim9_post.ts 1⟩, 1) ∧
    claim9_post.form_cavity claim9_absent =
      Except.error "Could not find t in self.ts!" := by
  have hmatch : factor_matches claim9_t claim9_t = true := by
    norm_num [factor_matches, torch_allclose, claim9_t, rat_abs]
  have hother : factor_matches claim9_other claim9_t = false := by
    norm_num [factor_matches, torch_allclose, claim9_other, claim9_t, rat_abs]
  have habs1 : factor_matches claim9_other claim9_absent = false := by
    norm_num [factor_matches, torch_allclose, claim9_other, claim9_absent,
      rat_abs]
  have habs2 : factor_matches claim9_t claim9_absent = false := by
    norm_num [factor_matches, torch_allclose, claim9_t, claim9_absent, rat_abs]
  refine ⟨rfl, hmatch, ?_, ?_⟩
  · exact (claim_C9 claim9_post claim9_t).2 1 claim9_t rfl hmatch
      (by simp [claim9_post, hother])
  · exact (claim_C9 claim9_post claim9_absent).1.mpr
      (by simp [claim9_post, habs1, habs2])

/-- **C10.** The `ExponentialFamilyDistribution` constructor raises
`ValueError` exactly when `is_trainable` is true and neither `std_params`
nor `nat_params` is provided; a non-trainable distribution constructed with
both absent stores `None` in every parameter slot without error. -/
theorem claim_C10 {S N U : Type} (fam : EFFam S N U) (std_params : Option S)
    (nat_params : Option N) (is_trainable : Bool) :
    ((∃ e, EFDist.init fam std_params nat_params is_trainable =
        Except.error e) ↔
      is_trainable = true ∧ std_params = none ∧ nat_params = none) ∧
    EFDist.init fam none none false =
      Except.ok ⟨false, none, none, none⟩ := by
  constructor
  · cases is_trainable <;> cases std_params <;> cases nat_params <;>
      simp [EFDist.init]
  · rfl

/-- Shared copy plumbing of `base.py`: on any non-trainable distribution
with at least one stored parameterisation whose (derived) standard
parameters satisfy `V`, `trainable_copy` then `non_trainable_copy` succeed
and reproduce the standard parameters, provided the family's
unconstrained-parameter section satisfies `std_from_unc ∘ unc_from_std = id`
on `V`. -/
lemma copy_then_copy_std {S N U : Type} (fam : EFFam S N U) (V : S → Prop)
    (hfam : ∀ s, V s → fam.std_from_unc (fam.unc_from_std s) = s)
    (d : EFDist S N U) (hnt : d.is_trainable = false)
    (hsome : d.stdP.isSome = true ∨ d.natP.isSome = true)
    (hv : ∀ s, EFDist.std_params fam d = some s → V s) :
    ∃ d1 d2, EFDist.trainable_copy fam d = Except.ok d1 ∧
      EFDist.non_trainable_copy fam d1 = Except.ok d2 ∧
      EFDist.std_params fam d2 = EFDist.std_params fam d := by
  obtain ⟨tr, sp, np, up⟩ := d
  dsimp only at hnt hsome hv
  subst hnt
  cases sp with
  | some s =>
    have hVs : V s := hv s (by simp [EFDist.std_params])
    refine ⟨_, _, rfl, rfl, ?_⟩
    simp [EFDist.std_params, EFDist.copy_params, hfam s hVs]
  | none =>
    cases np with
    | none => simp at hsome
    | some n =>
      have hVn : V (fam.std_from_nat n) := hv _ (by simp [EFDist.std_params])
      refine ⟨_, _, rfl, rfl, ?_⟩
      simp [EFDist.std_params, EFDist.copy_params, hfam _ hVn]

/-- Mean-field Gaussian unconstrained-parameter section: for positive
scales, `sqrt(exp(2·log(scale))) = scale`. -/
lemma mfg_unc_roundtrip (I : Type) (s : MFGStd I) (hs : ∀ i, 0 < s.scale i) :
    (MeanFieldGaussianDistribution.fam I).std_from_unc
      ((MeanFieldGaussianDistribution.fam I).unc_from_std s) = s := by
  ext i
  · rfl
  · show Real.sqrt (Real.exp (2 * Real.log (s.scale i))) = s.scale i
    rw [two_mul, Real.exp_add, Real.exp_log (hs i),
      Real.sqrt_mul_self (hs i).le]

/-- Beta unconstrained-parameter section: `exp (log α) = α` for positive
concentrations. -/
lemma beta_unc_roundtrip (I : Type) (s : BetaStd I)
    (h1 : ∀ i, 0 < s.concentration1 i) (h0 : ∀ i, 0 < s.concentration0 i) :
    (BetaDistribution.fam I).std_from_unc
      ((BetaDistribution.fam I).unc_from_std s) = s := by
  ext i
  · exact Real.exp_log (h1 i)
  · exact Real.exp_log (h0 i)

/-- Gamma unconstrained-parameter section: `exp (log c) = c` and
`1 / exp (log (1 / rate)) = rate` for positive parameters. -/
lemma gamma_unc_roundtrip (I : Type) (s : GammaStd I)
    (hc : ∀ i, 0 < s.concentration i) (hr : ∀ i, 0 < s.rate i) :
    (GammaDistribution.fam I).std_from_unc
      ((GammaDistribution.fam I).unc_from_std s) = s := by
  ext i
  · exact Real.exp_log (hc i)
  · show 1 / Real.exp (Real.log (1 / s.rate i)) = s.rate i
    rw [Real.exp_log (one_div_pos.mpr (hr i)), one_div_one_div]

/-- Dirichlet unconstrained-parameter section. -/
lemma dir_unc_roundtrip (I : Type) (s : DirStd I)
    (hc : ∀ i, 0 < s.concentration i) :
    (DirichletDistribution.fam I).std_from_unc
      ((DirichletDistribution.fam I).unc_from_std s) = s := by
  ext i
  exact Real.exp_log (hc i)

/-- **C7.** The copy round-trip claim fails on the code:
`CategoricalDistribution` overrides the `nat_params` setter with an
unconditional subscript, so on a valid non-trainable categorical
distribution `trainable_copy()` followed by `non_trainable_copy()` raises
`TypeError` (the inherited copy passes `nat_params=None` to the subclass
constructor) instead of returning a copy.  For the families whose setters
are inherited unchanged — mean-field Gaussian (hence log-Normal), Beta,
Gamma, Dirichlet — the round-trip does reproduce the standard parameters
exactly, for valid (positive-scale / positive-concentration) parameters. -/
theorem claim_C7 :
    (CategoricalDistribution.trainable_copy claim7_cat_dist).bind
        CategoricalDistribution.non_trainable_copy =
      Except.error "TypeError: 'NoneType' object is not subscriptable" ∧
    (∀ (I : Type) (d : EFDist (MFGStd I) (MFGNat I) (MFGUnc I)),
      d.is_trainable = false →
      (d.stdP.isSome = true ∨ d.natP.isSome = true) →
      (∀ s, EFDist.std_params (MeanFieldGaussianDistribution.fam I) d = some s →
        ∀ i, 0 < s.scale i) →
      ∃ d1 d2,
        EFDist.trainable_copy (MeanFieldGaussianDistribution.fam I) d =
          Except.ok d1 ∧
        EFDist.non_trainable_copy (MeanFieldGaussianDistribution.fam I) d1 =
          Except.ok d2 ∧
        EFDist.std_params (MeanFieldGaussianDistribution.fam I) d2 =
          EFDist.std_params (MeanFieldGaussianDistribution.fam I) d) ∧
    (∀ (I : Type) (d : EFDist (BetaStd I) (BetaNat I) (BetaUnc I)),
      d.is_trainable = false →
      (d.stdP.isSome = true ∨ d.natP.isSome = true) →
      (∀ s, EFDist.std_params (BetaDistribution.fam I) d = some s →
        (∀ i, 0 < s.concentration1 i) ∧ ∀ i, 0 < s.concentration0 i) →
      ∃ d1 d2,
        EFDist.trainable_copy (BetaDistribution.fam I) d = Except.ok d1 ∧
        EFDist.non_trainable_copy (BetaDistribution.fam I) d1 = Except.ok d2 ∧
        EFDist.std_params (BetaDistribution.fam I) d2 =
          EFDist.std_params (BetaDistribution.fam I) d) ∧
    (∀ (I : Type) (d : EFDist (GammaStd I) (GammaNat I) (GammaUnc I)),
      d.is_trainable = false →
      (d.stdP.isSome = true ∨ d.natP.isSome = true) →
      (∀ s, EFDist.std_params (GammaDistribution.fam I) d = some s →
        (∀ i, 0 < s.concentration i) ∧ ∀ i, 0 < s.rate i) →
      ∃ d1 d2,
        EFDist.trainable_copy (GammaDistribution.fam I) d = Except.ok d1 ∧
        EFDist.non_trainable_copy (GammaDistribution.fam I) d1 = Except.ok d2 ∧
        EFDist.std_params (GammaDistribution.fam I) d2 =
          EFDist.std_params (GammaDistribution.fam I) d) ∧
    ∀ (I : Type) (d : EFDist (DirStd I) (DirNat I) (DirUnc I)),
      d.is_trainable = false →
      (d.stdP.isSome = true ∨ d.natP.isSome = true) →
      (∀ s, EFDist.std_params (DirichletDistribution.fam I) d = some s →
        ∀ i, 0 < s.concentration i) →
      ∃ d1 d2,
        EFDist.trainable_copy (DirichletDistribution.fam I) d = Except.ok d1 ∧
        EFDist.non_trainable_copy (DirichletDistribution.fam I) d1 =
          Except.ok d2 ∧
        EFDist.std_params (DirichletDistribution.fam I) d2 =
          EFDist.std_params (DirichletDistribution.fam I) d := by
  refine ⟨rfl, ?_, ?_, ?_, ?_⟩
  · intro I d h1 h2 h3
    exact copy_then_copy_std _ (fun s => ∀ i, 0 < s.scale i)
      (fun s hs => mfg_unc_roundtrip I s hs) d h1 h2 h3
  · intro I d h1 h2 h3
    exact copy_then_copy_std _
      (fun s => (∀ i, 0 < s.concentration1 i) ∧ ∀ i, 0 < s.concentration0 i)
      (fun s hs => beta_unc_roundtrip I s hs.1 hs.2) d h1 h2 h3
  · intro I d h1 h2 h3
    exact copy_then_copy_std _
      (fun s => (∀ i, 0 < s.concentration i) ∧ ∀ i, 0 < s.rate i)
      (fun s hs => gamma_unc_roundtrip I s hs.1 hs.2) d h1 h2 h3
  · intro I d h1 h2 h3
    exact copy_then_copy_std _ (fun s => ∀ i, 0 < s.concentration i)
      (fun s hs => dir_unc_roundtrip I s hs) d h1 h2 h3

/-- Witness for C7: the mean-field-Gaussian conjunct applied to a concrete
standard-normal non-trainable distribution. -/
theorem claim_C7_witness :
    claim7_mfg_dist.is_trainable = false ∧
    claim7_mfg_dist.stdP.isSome = true ∧
    ∃ d1 d2,
      EFDist.trainable_copy (MeanFieldGaussianDistribution.fam Unit)
        claim7_mfg_dist = Except.ok d1 ∧
      EFDist.non_trainable_copy (MeanFieldGaussianDistribution.fam Unit) d1 =
        Except.ok d2 ∧
      EFDist.std_params (MeanFieldGaussianDistribution.fam Unit) d2 =
        EFDist.std_params (MeanFieldGaussianDistribution.fam Unit)
          claim7_mfg_dist := by
  refine ⟨rfl, rfl, ?_⟩
  refine claim_C7.2.1 Unit claim7_mfg_dist rfl (Or.inl rfl) ?_
  intro s hs i
  have heq : (⟨fun _ => 0, fun _ => 1⟩ : MFGStd Unit) = s := by
    have := hs
    simpa [EFDist.std_params, claim7_mfg_dist] using this
  rw [← heq]
  norm_num

/-- **C1.** The standard → natural → standard round-trip fails on the code
for `BetaDistribution`: `_nat_from_std` stores `np2 = β − 1` while
`_std_from_nat` returns `concentration0 = np2 + 2`, so the round-trip
returns `β + 1` for every input — e.g. `(α, β) = (2, 3)` comes back as
`(2, 4)` — while `concentration1` round-trips correctly. -/
theorem claim_C1 :
    (∀ (I : Type) (s : BetaStd I) (i : I),
      ((BetaDistribution.fam I).std_from_nat
        ((BetaDistribution.fam I).nat_from_std s)).concentration1 i =
          s.concentration1 i ∧
      ((BetaDistribution.fam I).std_from_nat
        ((BetaDistribution.fam I).nat_from_std s)).concentration0 i =
          s.concentration0 i + 1) ∧
    ((BetaDistribution.fam Unit).std_from_nat
      ((BetaDistribution.fam Unit).nat_from_std
        claim1_beta_std)).concentration0 () = 4 ∧
    claim1_beta_std.concentration0 () = 3 ∧
    (4 : ℝ) ≠ 3 := by
  refine ⟨?_, ?_, rfl, by norm_num⟩
  · intro I s i
    constructor <;>
      · simp only [BetaDistribution.fam]
        ring
  · show (3 : ℝ) - 1 + 2 = 4
    norm_num

end PVI
